import Mathlib

/-!
Verification of the archetypal entity-component store in `src/world.rs`
(feather-hecs).

The `World` operations (`spawn`, `despawn`, `contains`, `get`, `get_mut`,
`entity`, `insert`, `remove`, the entity iterator's `size_hint`, the tuple
`Bundle` implementations and `EntityBuilder`) are translated from
`src/world.rs`.  The `Archetype` and `TypeInfo` side (file `archetype.rs`,
not part of the sources) is modelled from the specification, section 4.C:
sorted type list, one type-erased column per type, parallel `entity_ids`,
and the operations `allocate`, `put`, `get`, `take`, `remove`,
`move_component_set`.

Machine integers (`u32` ids, generations, indices) are modelled as `Nat`;
none of the claims probes wrap-around behaviour.  Rust panics (slice index
out of bounds, `assert!`, missing-component panics) are modelled as an
explicit `RunError.panic` result; operations that take `&mut self` in Rust
return the post-state world paired with the result, so that an early
`return Err(..)` provably leaves the world unchanged.  The Rust `Vec` used
as a stack for `free` is modelled as a list whose head is the top of the
stack (Rust pushes and pops at the vector's end).
-/

namespace FeatherHecs

/-- Process-unique component type identifier (`std::any::TypeId`), modelled
as a numeral. -/
abbrev TypeId := Nat

/-- A type-erased component payload. -/
abbrev Value := Nat

/-- Modelled from the spec: `TypeInfo` of the missing `archetype.rs` is
"{ key, size_bytes, align_bytes, drop(ptr) }. Ordered by key"; only the key
and the human-readable type name are observable in the claims, so sizes,
alignment and the drop thunk are omitted. -/
structure TypeInfo where
  id : TypeId
  name : String
deriving DecidableEq

/-- One type-erased column of an archetype: its type descriptor and one cell
per row; `none` is a logically uninitialized cell (freshly allocated, or
evacuated by `take`). -/
structure Column where
  info : TypeInfo
  cells : List (Option Value)
deriving DecidableEq

/-- Modelled from the spec: `Archetype` of the missing `archetype.rs` —
a type list, one column per type, and the parallel `entity_ids` of the
occupied rows (`len` is the length of `entity_ids`). -/
structure Archetype where
  columns : List Column
  entityIds : List Nat
deriving DecidableEq

namespace Archetype

/-- Modelled from the spec: construct an empty archetype for a type list. -/
def new (info : List TypeInfo) : Archetype :=
  { columns := info.map (fun t => { info := t, cells := [] }), entityIds := [] }

/-- Number of occupied rows. -/
def len (a : Archetype) : Nat := a.entityIds.length

/-- The archetype's type list, in column order. -/
def types (a : Archetype) : List TypeInfo := a.columns.map (·.info)

/-- The entity id stored at a row (the `entity_id` accessor). -/
def entityId (a : Archetype) (row : Nat) : Nat := a.entityIds.getD row 0

/-- Modelled from the spec: `allocate(entity_id) -> row` appends an
uninitialized row to every column and records the entity id, returning the
new row index (the previous `len`). -/
def allocate (a : Archetype) (eid : Nat) : Archetype × Nat :=
  ({ columns := a.columns.map (fun c => { c with cells := c.cells ++ [none] }),
     entityIds := a.entityIds ++ [eid] },
   a.entityIds.length)

/-- Modelled from the spec: `put(value, row)` writes the cell at `row` of the
column for type `ty` (a no-op when the archetype has no such column; the
caller guarantees type correctness). -/
def put (a : Archetype) (ty : TypeId) (v : Value) (row : Nat) : Archetype :=
  { a with columns := a.columns.map (fun c =>
      if c.info.id = ty then { c with cells := c.cells.set row (some v) } else c) }

/-- The column for a type, if the archetype has one. -/
def getCol (a : Archetype) (ty : TypeId) : Option Column :=
  a.columns.find? (fun c => c.info.id == ty)

/-- Modelled from the spec: `get(row, T)` — `none` when the archetype lacks
the type, otherwise the cell content at `row`. -/
def get (a : Archetype) (ty : TypeId) (row : Nat) : Option (Option Value) :=
  (a.getCol ty).map (fun c => c.cells.getD row none)

/-- Modelled from the spec: `take(row, T)` bitwise-moves the value out of the
cell, leaving it logically uninitialized; `none` when the type is absent or
the cell holds no value. -/
def take (a : Archetype) (ty : TypeId) (row : Nat) : Option (Value × Archetype) :=
  match a.get ty row with
  | some (some v) =>
      some (v, { a with columns := a.columns.map (fun c =>
          if c.info.id = ty then { c with cells := c.cells.set row none } else c) })
  | _ => none

/-- Modelled from the spec: `remove(row)` drops the row and swap-removes: the
last row is moved into `row` and the moved entity id is returned so the
caller can patch its meta; `none` when `row` was the last. Always decrements
`len`. -/
def remove (a : Archetype) (row : Nat) : Archetype × Option Nat :=
  let last := a.entityIds.length - 1
  if row = last then
    ({ columns := a.columns.map (fun c => { c with cells := c.cells.dropLast }),
       entityIds := a.entityIds.dropLast }, none)
  else
    let movedId := a.entityIds.getD last 0
    ({ columns := a.columns.map (fun c =>
         { c with cells := (c.cells.set row (c.cells.getD last none)).dropLast }),
       entityIds := (a.entityIds.set row movedId).dropLast }, some movedId)

/-- Modelled from the spec: `move_component_set(row)` captures the row's
cells per type; storing them into a target copies every component whose type
the target also has (bitwise, no destructors). -/
def moveComponentSet (a : Archetype) (row : Nat) : List (TypeId × Option Value) :=
  a.columns.map (fun c => (c.info.id, c.cells.getD row none))

end Archetype

/-- Write a captured component set into a row of a target archetype; cells
whose type the target lacks are skipped by `put`. -/
def storeComponentSet (cs : List (TypeId × Option Value)) (t : Archetype) (row : Nat) :
    Archetype :=
  cs.foldl (fun acc p =>
    match p.2 with
    | some v => acc.put p.1 v row
    | none => acc) t

/-- Private per-slot entity metadata, from `world.rs`. -/
structure EntityMeta where
  generation : Nat
  archetype : Nat
  index : Nat
deriving DecidableEq

/-- Public generational entity handle, from `world.rs`. -/
structure Entity where
  generation : Nat
  id : Nat
deriving DecidableEq

/-- Outcome of an operation that Rust reports exceptionally: either the
recoverable `NoSuchEntity` error value or a panic with its message. -/
inductive RunError where
  | noSuchEntity
  | panic (msg : String)
deriving DecidableEq

/-- Panic message of an out-of-bounds slice index. -/
def oobMsg : String := "index out of bounds"

/-- Panic message of the first assertion in `index2`. -/
def assertNeMsg : String := "assertion failed: i != j"

/-- Panic message of the bounds assertions in `index2`. -/
def assertLenMsg : String := "assertion failed: j < x.len()"

/-- Panic message of a `take` on a missing component (unreachable from the
public API; the `index2` assertion fires first). -/
def takeMissingMsg : String := "no such component"

/-- The world, from `world.rs`: slot metadata, free-slot stack, archetype
list, the type-list-keyed archetype index (an `FxHashMap`, modelled as an
association list), and the set of type keys registered in the borrow
state. -/
structure World where
  entities : List EntityMeta
  free : List Nat
  archetypes : List Archetype
  archetypeIndex : List (List TypeId × Nat)
  borrows : List TypeId
deriving DecidableEq

/-- Hash-map lookup on the archetype index. -/
def lookupIndex (m : List (List TypeId × Nat)) (k : List TypeId) : Option Nat :=
  (m.find? (fun p => p.1 == k)).map (·.2)

/-- The borrow state's idempotent `ensure` registration. -/
def ensure (b : List TypeId) (ty : TypeId) : List TypeId :=
  if ty ∈ b then b else ty :: b

/-- Update one slot's metadata in place (in-range by construction wherever
this is used on the success paths of `world.rs`). -/
def setMeta (es : List EntityMeta) (i : Nat) (f : EntityMeta → EntityMeta) :
    List EntityMeta :=
  match es[i]? with
  | some m => es.set i (f m)
  | none => es

namespace World

/-- Create an empty world (`World::new`). -/
def new : World :=
  { entities := [], free := [], archetypes := [], archetypeIndex := [], borrows := [] }

/-- Body of `World::spawn`, generic over the bundle's `elements()`, `info()`
and `store` exactly as the Rust code is generic over `impl Bundle`: pop a
free slot (reusing its generation) or append a fresh meta, look up or create
the archetype for the bundle's elements, allocate a row and let the bundle
store into it. -/
def spawnWith (w : World) (elements : List TypeId) (info : List TypeInfo)
    (stor : Archetype → Nat → Archetype) : World × Except RunError Entity :=
  let slot : Option (World × Entity) :=
    match w.free with
    | i :: rest =>
      match w.entities[i]? with
      | none => none
      | some meta => some ({ w with free := rest }, { generation := meta.generation, id := i })
    | [] =>
      some ({ w with entities := w.entities ++ [{ generation := 0, archetype := 0, index := 0 }] },
            { generation := 0, id := w.entities.length })
  match slot with
  | none => (w, Except.error (RunError.panic oobMsg))
  | some (w1, entity) =>
    let step : World × Nat :=
      match lookupIndex w1.archetypeIndex elements with
      | some x => (w1, x)
      | none =>
        let borrows := info.foldl (fun b t => ensure b t.id) w1.borrows
        let archetypes := w1.archetypes ++ [Archetype.new info]
        ({ w1 with
            borrows := borrows
            archetypes := archetypes
            archetypeIndex := (elements, archetypes.length - 1) :: w1.archetypeIndex },
         archetypes.length - 1)
    match step.1.archetypes[step.2]? with
    | none => (step.1, Except.error (RunError.panic oobMsg))
    | some arch =>
      let alloc := arch.allocate entity.id
      let arch3 := stor alloc.1 alloc.2
      ({ step.1 with
          archetypes := step.1.archetypes.set step.2 arch3,
          entities := setMeta step.1.entities entity.id
            (fun m => { m with archetype := step.2, index := alloc.2 }) },
       Except.ok entity)

/-- The `elements()` of a tuple bundle: the ids of the sorted `info()`. -/
def tupleElements (comps : List (TypeInfo × Value)) : List TypeId :=
  (List.insertionSort (fun a b : TypeInfo => a.id ≤ b.id) (comps.map (·.1))).map (·.id)

/-- The `info()` of a tuple bundle: the type infos sorted (the macro-expanded
impl sorts at every call). -/
def tupleInfo (comps : List (TypeInfo × Value)) : List TypeInfo :=
  List.insertionSort (fun a b : TypeInfo => a.id ≤ b.id) (comps.map (·.1))

/-- The `store` of a tuple bundle: put every component, in declaration
order. -/
def tupleStore (comps : List (TypeInfo × Value)) (a : Archetype) (row : Nat) : Archetype :=
  comps.foldl (fun acc p => acc.put p.1.id p.2 row) a

/-- Spawn with a tuple bundle (components in declaration order). -/
def spawnTuple (w : World) (comps : List (TypeInfo × Value)) :
    World × Except RunError Entity :=
  w.spawnWith (tupleElements comps) (tupleInfo comps) (tupleStore comps)

/-- Spawn with the empty tuple bundle `()`. -/
def spawnUnit (w : World) : World × Except RunError Entity :=
  w.spawnTuple []

/-- Destroy the entity and its components (`World::despawn`): generation
check, bump the generation, swap-remove the row (patching the meta of a
moved entity), push the slot on `free`. -/
def despawn (w : World) (e : Entity) : World × Except RunError Unit :=
  match w.entities[e.id]? with
  | none => (w, Except.error (RunError.panic oobMsg))
  | some meta =>
    if meta.generation = e.generation then
      let w1 := { w with
        entities := w.entities.set e.id { meta with generation := meta.generation + 1 } }
      match w1.archetypes[meta.archetype]? with
      | none => (w1, Except.error (RunError.panic oobMsg))
      | some arch =>
        let rem := arch.remove meta.index
        let w2 := { w1 with archetypes := w1.archetypes.set meta.archetype rem.1 }
        match rem.2 with
        | some m =>
          match w2.entities[m]? with
          | none => (w2, Except.error (RunError.panic oobMsg))
          | some mm =>
            let w3 := { w2 with entities := w2.entities.set m { mm with index := meta.index } }
            ({ w3 with free := e.id :: w3.free }, Except.ok ())
        | none => ({ w2 with free := e.id :: w2.free }, Except.ok ())
    else (w, Except.error RunError.noSuchEntity)

/-- Whether the entity still exists (`World::contains`): generation equality
of the indexed slot. -/
def contains (w : World) (e : Entity) : Except RunError Bool :=
  match w.entities[e.id]? with
  | none => Except.error (RunError.panic oobMsg)
  | some meta => Except.ok (meta.generation == e.generation)

/-- Borrow the component of type `t` (`World::get`): generation check, then
the archetype cell; panics with the type's name when the component is
absent. -/
def get (w : World) (e : Entity) (t : TypeInfo) : Except RunError (Option Value) :=
  match w.entities[e.id]? with
  | none => Except.error (RunError.panic oobMsg)
  | some meta =>
    if meta.generation = e.generation then
      match w.archetypes[meta.archetype]? with
      | none => Except.error (RunError.panic oobMsg)
      | some arch =>
        match arch.get t.id meta.index with
        | none => Except.error (RunError.panic ("entity has no " ++ t.name ++ " component"))
        | some cell => Except.ok cell
    else Except.error RunError.noSuchEntity

/-- Uniquely borrow the component of type `t` (`World::get_mut`); the model
of the returned guard is the same cell. -/
def getMut (w : World) (e : Entity) (t : TypeInfo) : Except RunError (Option Value) :=
  match w.entities[e.id]? with
  | none => Except.error (RunError.panic oobMsg)
  | some meta =>
    if meta.generation = e.generation then
      match w.archetypes[meta.archetype]? with
      | none => Except.error (RunError.panic oobMsg)
      | some arch =>
        match arch.get t.id meta.index with
        | none => Except.error (RunError.panic ("entity has no " ++ t.name ++ " component"))
        | some cell => Except.ok cell
    else Except.error RunError.noSuchEntity

/-- Access an entity regardless of component types (`World::entity`): the
`EntityRef` is modelled by the archetype index and row it wraps. -/
def entity (w : World) (e : Entity) : Except RunError (Nat × Nat) :=
  match w.entities[e.id]? with
  | none => Except.error (RunError.panic oobMsg)
  | some meta =>
    if meta.generation = e.generation then
      match w.archetypes[meta.archetype]? with
      | none => Except.error (RunError.panic oobMsg)
      | some _ => Except.ok (meta.archetype, meta.index)
    else Except.error RunError.noSuchEntity

/-- Add a component to an entity (`World::insert`).  As in the source, the
new `TypeInfo` is pushed onto the source archetype's type list without
re-sorting, the target archetype is looked up or created under that key, and
on the move path the components are copied into a fresh target row — the
source row is not removed (the source has no `source_arch.remove` call
here). -/
def insert (w : World) (e : Entity) (t : TypeInfo) (v : Value) :
    World × Except RunError Unit :=
  match w.entities[e.id]? with
  | none => (w, Except.error (RunError.panic oobMsg))
  | some meta =>
    if meta.generation = e.generation then
      match w.archetypes[meta.archetype]? with
      | none => (w, Except.error (RunError.panic oobMsg))
      | some srcArch =>
        let info := srcArch.types ++ [t]
        let elements := info.map (·.id)
        let step : World × Nat :=
          match lookupIndex w.archetypeIndex elements with
          | some x => (w, x)
          | none =>
            let archetypes := w.archetypes ++ [Archetype.new info]
            ({ w with
                borrows := ensure w.borrows t.id
                archetypes := archetypes
                archetypeIndex := (elements, archetypes.length - 1) :: w.archetypeIndex },
             archetypes.length - 1)
        let w2 := step.1
        let target := step.2
        if target = meta.archetype then
          match w2.archetypes[meta.archetype]? with
          | none => (w2, Except.error (RunError.panic oobMsg))
          | some arch =>
            match arch.get t.id meta.index with
            | none => (w2, Except.error (RunError.panic ("corrupt archetype index")))
            | some _ =>
              ({ w2 with
                  archetypes := w2.archetypes.set meta.archetype (arch.put t.id v meta.index) },
               Except.ok ())
        else
          match w2.archetypes[target]? with
          | none => (w2, Except.error (RunError.panic assertLenMsg))
          | some tgtArch =>
            let components := srcArch.moveComponentSet meta.index
            let alloc := tgtArch.allocate e.id
            let tgt2 := storeComponentSet components alloc.1 alloc.2
            let tgt3 := tgt2.put t.id v alloc.2
            ({ w2 with
                archetypes := w2.archetypes.set target tgt3,
                entities := w2.entities.set e.id
                  { meta with archetype := target, index := alloc.2 } },
             Except.ok ())
    else (w, Except.error RunError.noSuchEntity)

/-- Remove the component of type `t` from an entity (`World::remove`).  As
in the source: filter the type out of the source archetype's type list, look
up or create the target, `index2` the two archetypes (asserting they are
distinct), `take` the value, copy the remaining components into a fresh
target row — again without removing the source row. -/
def remove (w : World) (e : Entity) (t : TypeInfo) : World × Except RunError Value :=
  match w.entities[e.id]? with
  | none => (w, Except.error (RunError.panic oobMsg))
  | some meta =>
    if meta.generation = e.generation then
      match w.archetypes[meta.archetype]? with
      | none => (w, Except.error (RunError.panic oobMsg))
      | some srcArch =>
        let info := srcArch.types.filter (fun x => x.id != t.id)
        let elements := info.map (·.id)
        let step : World × Nat :=
          match lookupIndex w.archetypeIndex elements with
          | some x => (w, x)
          | none =>
            let archetypes := w.archetypes ++ [Archetype.new info]
            ({ w with
                archetypes := archetypes
                archetypeIndex := (elements, archetypes.length - 1) :: w.archetypeIndex },
             archetypes.length - 1)
        let w2 := step.1
        let target := step.2
        if target = meta.archetype then
          (w2, Except.error (RunError.panic assertNeMsg))
        else
          match w2.archetypes[target]? with
          | none => (w2, Except.error (RunError.panic assertLenMsg))
          | some tgtArch =>
            match srcArch.take t.id meta.index with
            | none => (w2, Except.error (RunError.panic takeMissingMsg))
            | some (x, srcArch2) =>
              let components := srcArch2.moveComponentSet meta.index
              let alloc := tgtArch.allocate e.id
              let tgt2 := storeComponentSet components alloc.1 alloc.2
              ({ w2 with
                  archetypes := (w2.archetypes.set meta.archetype srcArch2).set target tgt2,
                  entities := w2.entities.set e.id
                    { meta with archetype := target, index := alloc.2 } },
               Except.ok x)
    else (w, Except.error RunError.noSuchEntity)

/-- The size hint of the world's entity iterator (`Iter::size_hint`): lower
bound 0, upper bound the length of the slot table. -/
def iterSizeHint (w : World) : Nat × Option Nat := (0, some w.entities.length)

/-- Number of live entities: slots whose id is not on the free stack. -/
def liveCount (w : World) : Nat :=
  (List.range w.entities.length).countP (fun i => !w.free.contains i)

end World

/-- Dynamic bundle accumulator (`EntityBuilder`). -/
structure EntityBuilder where
  components : List (TypeInfo × Value)
deriving DecidableEq

/-- Append a component to the builder (`EntityBuilder::add`). -/
def EntityBuilder.add (b : EntityBuilder) (t : TypeInfo) (v : Value) : EntityBuilder :=
  { components := b.components ++ [(t, v)] }

/-- The output of `EntityBuilder::build`: the accumulated components sorted
by their type key. -/
structure BuiltEntity where
  components : List (TypeInfo × Value)
deriving DecidableEq

/-- Sort the accumulator by type key and seal it (`EntityBuilder::build`). -/
def EntityBuilder.build (b : EntityBuilder) : BuiltEntity :=
  { components := List.insertionSort (fun x y => x.1.id ≤ y.1.id) b.components }

/-- The `elements()` of a built bundle: ids in stored (sorted) order. -/
def BuiltEntity.elements (b : BuiltEntity) : List TypeId :=
  b.components.map (·.1.id)

/-- The `info()` of a built bundle. -/
def BuiltEntity.info (b : BuiltEntity) : List TypeInfo :=
  b.components.map (·.1)

/-- The `store` of a built bundle: `put_dynamic` every component. -/
def BuiltEntity.store (b : BuiltEntity) (a : Archetype) (row : Nat) : Archetype :=
  b.components.foldl (fun acc p => acc.put p.1.id p.2 row) a

/-- Spawn with a built bundle. -/
def World.spawnBuilt (w : World) (b : BuiltEntity) : World × Except RunError Entity :=
  w.spawnWith b.elements b.info b.store

/-- A bundle as `World::spawn` accepts one: a tuple bundle in declaration
order, or an `EntityBuilder` whose `build()` output is spawned (a
`BuiltEntity` can only be obtained through `build`). -/
inductive AnyBundle where
  | tuple (comps : List (TypeInfo × Value))
  | built (b : EntityBuilder)

/-- The component type keys a bundle was declared with (its unordered
type-set, as a list in declaration order). -/
def AnyBundle.rawIds : AnyBundle → List TypeId
  | .tuple comps => comps.map (·.1.id)
  | .built b => b.components.map (·.1.id)

/-- The canonical `elements()` key of a bundle. -/
def AnyBundle.elements : AnyBundle → List TypeId
  | .tuple comps => World.tupleElements comps
  | .built b => b.build.elements

/-- The `info()` list of a bundle. -/
def AnyBundle.infoList : AnyBundle → List TypeInfo
  | .tuple comps => World.tupleInfo comps
  | .built b => b.build.info

/-- The column writer of a bundle. -/
def AnyBundle.storeFn : AnyBundle → Archetype → Nat → Archetype
  | .tuple comps => World.tupleStore comps
  | .built b => b.build.store

/-- Spawn with either bundle provider. -/
def World.spawnAny (w : World) (b : AnyBundle) : World × Except RunError Entity :=
  match b with
  | .tuple comps => w.spawnTuple comps
  | .built bb => w.spawnBuilt bb.build

/-- Walk a haystack, testing the needle as a prefix at every suffix. -/
def strContainsGo : List Char → List Char → Bool
  | [], needle => needle.isEmpty
  | h :: t, needle => needle.isPrefixOf (h :: t) || strContainsGo t needle

/-- Boolean substring test (for panic-message claims). -/
def strContains (hay needle : String) : Bool :=
  strContainsGo hay.toList needle.toList

/-! ### Concrete worlds used as inputs of the claims -/

/-- A sample component type with key 1. -/
def tyA : TypeInfo := { id := 1, name := "i32" }

/-- A sample component type with key 2. -/
def tyB : TypeInfo := { id := 2, name := "bool" }

/-- Fallback archetype for total row lookups in theorem statements. -/
def emptyArch : Archetype := Archetype.new []

/-- Result of spawning one entity with the bundle `(tyA,)` in a new world. -/
def trcSpawnA : World × Except RunError Entity := World.spawnTuple World.new [(tyA, 11)]

/-- The world holding exactly one entity with one `tyA` component. -/
def wA : World := trcSpawnA.1

/-- The handle of that entity. -/
def eA : Entity := { generation := 0, id := 0 }

/-- Result of `remove::<tyA>(eA)` on `wA`. -/
def trcRemoveA : World × Except RunError Value := World.remove wA eA tyA

/-- Result of `insert(eA, tyB value)` on `wA`. -/
def trcInsertB : World × Except RunError Unit := World.insert wA eA tyB 22

/-- Result of `insert(eA, tyA value)` on `wA` — the entity already has
`tyA`. -/
def trcInsertA : World × Except RunError Unit := World.insert wA eA tyA 77

/-- Result of `remove::<tyB>(eA)` on `wA` — the entity lacks `tyB`. -/
def trcRemoveB : World × Except RunError Value := World.remove wA eA tyB

/-- World after `spawn((tyB,))`, then `insert` of `tyA` on that entity, then
`spawn((tyA, tyB))`. -/
def wDup : World :=
  let s := World.spawnTuple World.new [(tyB, 5)]
  let i := World.insert s.1 { generation := 0, id := 0 } tyA 6
  (World.spawnTuple i.1 [(tyA, 7), (tyB, 8)]).1

/-- World after `spawn(())`, `spawn(())`, `despawn` of the first: two slots,
one live entity. -/
def wHalf : World :=
  let a := World.spawnUnit World.new
  let b := World.spawnUnit a.1
  (World.despawn b.1 { generation := 0, id := 0 }).1

/-! ### Helper lemmas -/

theorem setMeta_length (es : List EntityMeta) (i : Nat) (f : EntityMeta → EntityMeta) :
    (setMeta es i f).length = es.length := by
  unfold setMeta
  cases es[i]? <;> simp

theorem setMeta_getElem_self {es : List EntityMeta} {i : Nat} {m : EntityMeta}
    (f : EntityMeta → EntityMeta) (h : es[i]? = some m) :
    (setMeta es i f)[i]? = some (f m) := by
  unfold setMeta
  rw [h]
  exact List.getElem?_set_self (List.getElem?_eq_some_iff.mp h).1

theorem lookupIndex_cons_self (k : List TypeId) (v : Nat) (m : List (List TypeId × Nat)) :
    lookupIndex ((k, v) :: m) k = some v := by
  simp [lookupIndex]

theorem lookupIndex_mem {m : List (List TypeId × Nat)} {k : List TypeId} {x : Nat}
    (h : lookupIndex m k = some x) : ∃ p ∈ m, p.2 = x := by
  unfold lookupIndex at h
  cases hf : m.find? (fun p => p.1 == k) with
  | none => rw [hf] at h; simp at h
  | some p =>
    rw [hf] at h
    simp only [Option.map_some', Option.some.injEq] at h
    exact ⟨p, List.mem_of_find?_eq_some hf, h⟩

instance : IsTotal TypeInfo (fun a b : TypeInfo => a.id ≤ b.id) :=
  ⟨fun a b => Nat.le_total a.id b.id⟩

instance : IsTrans TypeInfo (fun a b : TypeInfo => a.id ≤ b.id) :=
  ⟨fun _ _ _ h1 h2 => Nat.le_trans h1 h2⟩

instance : IsTotal (TypeInfo × Value) (fun x y => x.1.id ≤ y.1.id) :=
  ⟨fun a b => Nat.le_total a.1.id b.1.id⟩

instance : IsTrans (TypeInfo × Value) (fun x y => x.1.id ≤ y.1.id) :=
  ⟨fun _ _ _ h1 h2 => Nat.le_trans h1 h2⟩

theorem AnyBundle.elements_sorted (b : AnyBundle) : b.elements.Sorted (· ≤ ·) := by
  cases b with
  | tuple comps =>
    have hs := List.sorted_insertionSort (fun a b : TypeInfo => a.id ≤ b.id)
      (comps.map (·.1))
    exact List.Pairwise.map (fun t : TypeInfo => t.id) (fun _ _ h => h) hs
  | built b =>
    have hs := List.sorted_insertionSort (fun x y : TypeInfo × Value => x.1.id ≤ y.1.id)
      b.components
    exact List.Pairwise.map (fun p : TypeInfo × Value => p.1.id) (fun _ _ h => h) hs

theorem AnyBundle.elements_perm_rawIds (b : AnyBundle) : b.elements.Perm b.rawIds := by
  cases b with
  | tuple comps =>
    have h := (List.perm_insertionSort (fun a b : TypeInfo => a.id ≤ b.id)
      (comps.map (·.1))).map (·.id)
    rw [List.map_map] at h
    exact h
  | built b =>
    exact (List.perm_insertionSort (fun x y : TypeInfo × Value => x.1.id ≤ y.1.id)
      b.components).map (·.1.id)

/-- Bundles declared with the same unordered type-set produce the same
canonical key, because both providers sort by the type key. -/
theorem AnyBundle.elements_eq_of_perm {b1 b2 : AnyBundle}
    (h : b1.rawIds.Perm b2.rawIds) : b1.elements = b2.elements :=
  List.eq_of_perm_of_sorted
    ((b1.elements_perm_rawIds.trans h).trans b2.elements_perm_rawIds.symm)
    b1.elements_sorted b2.elements_sorted

theorem World.spawnAny_eq (w : World) (b : AnyBundle) :
    w.spawnAny b = w.spawnWith b.elements b.infoList b.storeFn := by
  cases b <;> rfl

theorem Archetype.put_entityIds (a : Archetype) (ty : TypeId) (v : Value) (row : Nat) :
    (a.put ty v row).entityIds = a.entityIds := rfl

/-- A tuple bundle's column writer never touches the entity-id column. -/
theorem tupleStore_entityIds (comps : List (TypeInfo × Value)) (a : Archetype) (r : Nat) :
    (World.tupleStore comps a r).entityIds = a.entityIds := by
  induction comps generalizing a with
  | nil => rfl
  | cons c t ih =>
    simp only [World.tupleStore, List.foldl_cons] at ih ⊢
    rw [ih]
    rfl

/-- A built bundle's column writer never touches the entity-id column. -/
theorem builtStore_entityIds (b : BuiltEntity) (a : Archetype) (r : Nat) :
    (b.store a r).entityIds = a.entityIds := by
  show ((b.components.foldl (fun acc p => acc.put p.1.id p.2 r)) a).entityIds = a.entityIds
  induction b.components generalizing a with
  | nil => rfl
  | cons c t ih =>
    simp only [List.foldl_cons]
    rw [ih]
    rfl

theorem AnyBundle.storeFn_entityIds (b : AnyBundle) (a : Archetype) (r : Nat) :
    (b.storeFn a r).entityIds = a.entityIds := by
  cases b with
  | tuple comps => exact tupleStore_entityIds comps a r
  | built bb => exact builtStore_entityIds bb.build a r

/-- On a well-formed world, `spawn` succeeds; the spawned entity's meta names
an archetype `A` and row, the row is the last row of `A`, the archetype
index afterwards maps the bundle's key to `A` and a pre-existing entry for
the key forces `A` to be its value, a popped free slot determines the
entity's id and generation, and well-formedness is preserved. -/
theorem spawnWith_resolves (w : World) (el : List TypeId) (info : List TypeInfo)
    (st : Archetype → Nat → Archetype)
    (hst : ∀ a r, (st a r).entityIds = a.entityIds)
    (hfree : ∀ i ∈ w.free, i < w.entities.length)
    (hidx : ∀ p ∈ w.archetypeIndex, p.2 < w.archetypes.length) :
    ∃ w' e A row, w.spawnWith el info st = (w', Except.ok e) ∧
      lookupIndex w'.archetypeIndex el = some A ∧
      w'.entities[e.id]? =
        some { generation := e.generation, archetype := A, index := row } ∧
      (∃ arch, w'.archetypes[A]? = some arch ∧ arch.entityIds.length = row + 1) ∧
      (∀ x, lookupIndex w.archetypeIndex el = some x → A = x) ∧
      (∀ i0 rest0, w.free = i0 :: rest0 → ∃ m, w.entities[i0]? = some m ∧
        e = { generation := m.generation, id := i0 } ∧ w'.free = rest0) ∧
      (∀ i ∈ w'.free, i < w'.entities.length) ∧
      (∀ p ∈ w'.archetypeIndex, p.2 < w'.archetypes.length) := by
  cases hF : w.free with
  | nil =>
    have hfresh : (w.entities ++ [({ generation := 0, archetype := 0, index := 0 } :
        EntityMeta)])[w.entities.length]? = some { generation := 0, archetype := 0, index := 0 } :=
      List.getElem?_concat_length _ _
    cases hlk : lookupIndex w.archetypeIndex el with
    | some x =>
      obtain ⟨p, hp, hpx⟩ := lookupIndex_mem hlk
      have hx : x < w.archetypes.length := hpx ▸ hidx p hp
      simp only [World.spawnWith, hF, hlk, List.getElem?_eq_getElem hx]
      refine ⟨_, _, x, w.archetypes[x].entityIds.length, rfl, hlk, ?_, ?_, ?_, ?_, ?_, ?_⟩
      · exact setMeta_getElem_self _ hfresh
      · refine ⟨_, List.getElem?_set_self hx, ?_⟩
        simp [hst, Archetype.allocate]
      · intro x0 h0
        simpa using h0
      · intro i0 rest0 h0
        exact ((List.cons_ne_nil i0 rest0) h0.symm).elim
      · simp
      · simpa using hidx
    | none =>
      have hnew : (w.archetypes ++ [Archetype.new info])[w.archetypes.length]? =
          some (Archetype.new info) := List.getElem?_concat_length _ _
      have hlt : w.archetypes.length < (w.archetypes ++ [Archetype.new info]).length := by
        simp
      simp only [World.spawnWith, hF, hlk, List.length_append, List.length_cons,
        List.length_nil, Nat.zero_add, Nat.add_sub_cancel, hnew]
      refine ⟨_, _, w.archetypes.length, 0, rfl, ?_, ?_, ?_, ?_, ?_, ?_, ?_⟩
      · simpa using lookupIndex_cons_self el w.archetypes.length w.archetypeIndex
      · exact setMeta_getElem_self _ hfresh
      · refine ⟨_, List.getElem?_set_self hlt, ?_⟩
        simp [hst, Archetype.allocate, Archetype.new]
      · intro x0 h0
        simp at h0
      · intro i0 rest0 h0
        exact ((List.cons_ne_nil i0 rest0) h0.symm).elim
      · simp
      · intro p hp
        simp only [List.mem_cons] at hp
        rcases hp with hp | hp
        · simp [hp]
        · have := hidx p hp
          simp only [List.length_set, List.length_append, List.length_cons, List.length_nil]
          omega
  | cons i rest =>
    have hi : i < w.entities.length := hfree i (hF ▸ List.mem_cons_self i rest)
    have hE : w.entities[i]? = some w.entities[i] := List.getElem?_eq_getElem hi
    cases hlk : lookupIndex w.archetypeIndex el with
    | some x =>
      obtain ⟨p, hp, hpx⟩ := lookupIndex_mem hlk
      have hx : x < w.archetypes.length := hpx ▸ hidx p hp
      simp only [World.spawnWith, hF, hE, hlk, List.getElem?_eq_getElem hx]
      refine ⟨_, _, x, w.archetypes[x].entityIds.length, rfl, hlk, ?_, ?_, ?_, ?_, ?_, ?_⟩
      · exact setMeta_getElem_self _ hE
      · refine ⟨_, List.getElem?_set_self hx, ?_⟩
        simp [hst, Archetype.allocate]
      · intro x0 h0
        simpa using h0
      · intro i0 rest0 h0
        injection h0 with h1 h2
        subst h1
        subst h2
        exact ⟨w.entities[i], hE, rfl, rfl⟩
      · intro j hj
        simp only [setMeta_length, List.length_set]
        exact hfree j (hF ▸ List.mem_cons_of_mem i hj)
      · simpa using hidx
    | none =>
      have hnew : (w.archetypes ++ [Archetype.new info])[w.archetypes.length]? =
          some (Archetype.new info) := List.getElem?_concat_length _ _
      have hlt : w.archetypes.length < (w.archetypes ++ [Archetype.new info]).length := by
        simp
      simp only [World.spawnWith, hF, hE, hlk, List.length_append, List.length_cons,
        List.length_nil, Nat.zero_add, Nat.add_sub_cancel, hnew]
      refine ⟨_, _, w.archetypes.length, 0, rfl, ?_, ?_, ?_, ?_, ?_, ?_, ?_⟩
      · simpa using lookupIndex_cons_self el w.archetypes.length w.archetypeIndex
      · exact setMeta_getElem_self _ hE
      · refine ⟨_, List.getElem?_set_self hlt, ?_⟩
        simp [hst, Archetype.allocate, Archetype.new]
      · intro x0 h0
        simp at h0
      · intro i0 rest0 h0
        injection h0 with h1 h2
        subst h1
        subst h2
        exact ⟨w.entities[i], hE, rfl, rfl⟩
      · intro j hj
        simp only [setMeta_length, List.length_set]
        exact hfree j (hF ▸ List.mem_cons_of_mem i hj)
      · intro p hp
        simp only [List.mem_cons] at hp
        rcases hp with hp | hp
        · simp [hp]
        · have := hidx p hp
          simp only [List.length_set, List.length_append, List.length_cons, List.length_nil]
          omega

/-- Despawning a live entity whose row is the last row of its archetype
bumps the slot's generation, removes the row without displacing any other
entity, and pushes the slot id on the free stack; the slot table length,
archetype count and archetype index are unchanged. -/
theorem despawn_last_row (w : World) (e : Entity) (A row : Nat) (arch : Archetype)
    (hm : w.entities[e.id]? =
      some { generation := e.generation, archetype := A, index := row })
    (ha : w.archetypes[A]? = some arch)
    (hrow : arch.entityIds.length = row + 1) :
    ∃ w2, w.despawn e = (w2, Except.ok ()) ∧
      w2.entities[e.id]? =
        some { generation := e.generation + 1, archetype := A, index := row } ∧
      w2.free = e.id :: w.free ∧
      w2.archetypeIndex = w.archetypeIndex ∧
      w2.entities.length = w.entities.length ∧
      w2.archetypes.length = w.archetypes.length := by
  have hlt : e.id < w.entities.length := (List.getElem?_eq_some_iff.mp hm).1
  have hc : (({ generation := e.generation, archetype := A, index := row } :
      EntityMeta)).generation = e.generation := rfl
  simp only [World.despawn, hm, if_pos hc, ha, Archetype.remove, hrow,
    Nat.add_sub_cancel, if_pos rfl]
  refine ⟨_, rfl, ?_, rfl, rfl, ?_, ?_⟩
  · exact List.getElem?_set_self hlt
  · simp
  · simp

/-! ### Theorems for the claims -/

/-- C1: `World::remove` on a live entity holding the component does take the
value out and does move the remainder to a fresh target row, but it never
removes the source row: evaluating the code on a world with one entity
holding one `tyA` component, the removal succeeds (returns 11), yet the
source archetype still has length 1 with its row still referring to entity
0, while entity 0's meta and a second row in the target archetype also refer
to it — the source row is leaked, contradicting the claimed length decrease
and the claimed uniqueness of the row referring to `e`. -/
theorem remove_leaks_source_row :
    trcSpawnA.2 = Except.ok eA ∧
    trcRemoveA.2 = Except.ok 11 ∧
    (trcRemoveA.1.archetypes.getD 0 emptyArch).len = 1 ∧
    (trcRemoveA.1.archetypes.getD 0 emptyArch).entityIds = [0] ∧
    (trcRemoveA.1.entities[0]?).map (fun m => (m.archetype, m.index)) = some (1, 0) ∧
    (trcRemoveA.1.archetypes.getD 1 emptyArch).entityIds = [0] :=
  ⟨rfl, rfl, rfl, rfl, rfl, rfl⟩

/-- C2: `World::insert` of a fresh component type allocates the target row,
moves the overlap and writes the new component, but never removes the
vacated source row: on a world with one entity holding one `tyA` component,
inserting a `tyB` component succeeds and the entity's meta moves to
archetype 1 row 0 with both components present there, yet the source
archetype still has length 1 (not 0) with its stale row still naming entity
0 — contradicting the claimed length decrease of the source archetype. -/
theorem insert_leaks_source_row :
    trcInsertB.2 = Except.ok () ∧
    (trcInsertB.1.entities[0]?).map (fun m => (m.archetype, m.index)) = some (1, 0) ∧
    (trcInsertB.1.archetypes.getD 1 emptyArch).columns.map
      (fun c => (c.info.id, c.cells)) = [(1, [some 11]), (2, [some 22])] ∧
    (trcInsertB.1.archetypes.getD 0 emptyArch).len = 1 ∧
    (trcInsertB.1.archetypes.getD 0 emptyArch).entityIds = [0] :=
  ⟨rfl, rfl, rfl, rfl, rfl⟩

/-- C3: `archetype_index` does not map each unordered type-set to a unique
archetype, because `World::insert` pushes the new `TypeInfo` at the end of
the source type list without re-sorting.  Spawning `(tyB,)`, inserting
`tyA`, then spawning `(tyA, tyB)` leaves the first entity in archetype 1
(keyed by the unsorted list [2, 1]) and the second in archetype 2 (keyed by
the canonical [1, 2]): two distinct index entries whose keys are
permutations of one another denote the same unordered type-set, and an
insert-produced archetype differs from the one the equivalent spawn resolves
to. -/
theorem insert_creates_duplicate_typeset_archetypes :
    (wDup.entities[0]?).map (·.archetype) = some 1 ∧
    (wDup.entities[1]?).map (·.archetype) = some 2 ∧
    (wDup.archetypes.getD 1 emptyArch).types.map (·.id) = [2, 1] ∧
    (wDup.archetypes.getD 2 emptyArch).types.map (·.id) = [1, 2] ∧
    ((wDup.archetypes.getD 1 emptyArch).types.map (·.id)).Perm
      ((wDup.archetypes.getD 2 emptyArch).types.map (·.id)) ∧
    lookupIndex wDup.archetypeIndex [2, 1] = some 1 ∧
    lookupIndex wDup.archetypeIndex [1, 2] = some 2 :=
  ⟨rfl, rfl, rfl, rfl, by decide, rfl, rfl⟩

/-- C9: `World::insert` of a component type the entity already has does not
overwrite in place: because the unsorted, duplicated key `[1, 1]` never
equals the source archetype's key, the `target == source` branch is
unreachable, and the entity is moved into a freshly created archetype whose
type list holds `tyA` twice, while the old value 11 stays behind in the
source row (its destructor never runs there).  This contradicts the claimed
in-place assignment with archetype and row unchanged. -/
theorem insert_existing_component_changes_archetype :
    trcInsertA.2 = Except.ok () ∧
    (trcInsertA.1.entities[0]?).map (·.archetype) = some 1 ∧
    (trcInsertA.1.archetypes.getD 1 emptyArch).types.map (·.id) = [1, 1] ∧
    (trcInsertA.1.archetypes.getD 0 emptyArch).columns.map (·.cells) = [[some 11]] :=
  ⟨rfl, rfl, rfl, rfl⟩

/-- C4 counterexample: removing a component the entity lacks does panic, but
via the `assert!(i != j)` inside `index2` — the panic message is the
assertion text and does not contain the human-readable name of the requested
type (here "bool"), contradicting the claim's panic-message clause. -/
theorem remove_missing_panic_lacks_type_name :
    trcRemoveB.2 = Except.error (RunError.panic assertNeMsg) ∧
    trcRemoveB.1 = wA ∧
    strContains assertNeMsg tyB.name = false :=
  ⟨rfl, rfl, rfl⟩

/-- C8 counterexample: after `spawn(()); spawn(()); despawn(first)` the
world has one live entity, yet the entity iterator's size hint reports the
upper bound 2 (the slot-table length), not the live-entity count 1. -/
theorem size_hint_upper_exceeds_live_count :
    wHalf.iterSizeHint = (0, some 2) ∧
    wHalf.liveCount = 1 ∧
    wHalf.iterSizeHint.2 ≠ some wHalf.liveCount :=
  ⟨rfl, rfl, by decide⟩

/-- C5: in any well-formed world, `a = spawn(()); despawn(a); b = spawn(())`
reuses the slot: both spawns and the despawn succeed, `a.id = b.id`,
`a.generation + 1 = b.generation`, and afterwards `contains(a)` is false
while `contains(b)` is true — the despawned slot comes back with its
generation bumped by exactly one. -/
theorem spawn_despawn_spawn_generation_bump (w : World)
    (hfree : ∀ i ∈ w.free, i < w.entities.length)
    (hidx : ∀ p ∈ w.archetypeIndex, p.2 < w.archetypes.length) :
    ∃ w1 a w2 w3 b,
      w.spawnUnit = (w1, Except.ok a) ∧
      w1.despawn a = (w2, Except.ok ()) ∧
      w2.spawnUnit = (w3, Except.ok b) ∧
      a.id = b.id ∧
      a.generation + 1 = b.generation ∧
      w3.contains a = Except.ok false ∧
      w3.contains b = Except.ok true := by
  have hunit : ∀ v : World, v.spawnUnit = v.spawnWith [] [] (World.tupleStore []) :=
    fun _ => rfl
  have hst : ∀ (a : Archetype) (r : Nat), ((World.tupleStore []) a r).entityIds = a.entityIds :=
    fun _ _ => rfl
  obtain ⟨w1, a, A, row, hs1, hlk1, hm1, harch1, _, _, hfree1, hidx1⟩ :=
    spawnWith_resolves w [] [] (World.tupleStore []) hst hfree hidx
  obtain ⟨arch1, ha1, hrow1⟩ := harch1
  obtain ⟨w2, hd, hm2, hfree2, hidx2eq, hlen2, halen2⟩ :=
    despawn_last_row w1 a A row arch1 hm1 ha1 hrow1
  have haid : a.id < w2.entities.length := by
    rw [hlen2]
    exact (List.getElem?_eq_some_iff.mp hm1).1
  have hfree2' : ∀ i ∈ w2.free, i < w2.entities.length := by
    intro i hi
    rw [hfree2] at hi
    rcases List.mem_cons.mp hi with h | h
    · subst h; exact haid
    · rw [hlen2]; exact hfree1 i h
  have hidx2 : ∀ p ∈ w2.archetypeIndex, p.2 < w2.archetypes.length := by
    intro p hp
    rw [hidx2eq] at hp
    rw [halen2]
    exact hidx1 p hp
  obtain ⟨w3, b, A3, row3, hs3, hlk3, hm3, _, _, hcons3, _, _⟩ :=
    spawnWith_resolves w2 [] [] (World.tupleStore []) hst hfree2' hidx2
  obtain ⟨m, hm', hb, _⟩ := hcons3 a.id w1.free hfree2
  have hmeq : m = { generation := a.generation + 1, archetype := A, index := row } := by
    rw [hm'] at hm2
    exact (Option.some.injEq _ _).mp hm2
  subst hmeq
  subst hb
  have hm3' : w3.entities[a.id]? =
      some { generation := a.generation + 1, archetype := A3, index := row3 } := hm3
  refine ⟨w1, a, w2, w3, { generation := a.generation + 1, id := a.id },
    ?_, hd, ?_, rfl, rfl, ?_, ?_⟩
  · rw [hunit w]
    exact hs1
  · rw [hunit w2]
    exact hs3
  · simp only [World.contains, hm3']
    simp [Nat.succ_ne_self]
  · simp only [World.contains, hm3']
    simp

/-- C5 witness: the empty world. -/
theorem spawn_despawn_spawn_generation_bump_witness :
    (∀ i ∈ World.new.free, i < World.new.entities.length) ∧
    (∀ p ∈ World.new.archetypeIndex, p.2 < World.new.archetypes.length) ∧
    (∃ w1 a w2 w3 b,
      World.new.spawnUnit = (w1, Except.ok a) ∧
      w1.despawn a = (w2, Except.ok ()) ∧
      w2.spawnUnit = (w3, Except.ok b) ∧
      a.id = b.id ∧
      a.generation + 1 = b.generation ∧
      w3.contains a = Except.ok false ∧
      w3.contains b = Except.ok true) :=
  ⟨by simp [World.new], by simp [World.new],
   spawn_despawn_spawn_generation_bump World.new
     (by simp [World.new]) (by simp [World.new])⟩

/-- C6: every entity-indexed operation checks the handle's generation
against the slot before doing anything else; on a mismatch, `despawn`,
`get`, `get_mut`, `entity`, `insert` and `remove` all return the
`NoSuchEntity` error value, and the mutating operations return the world
exactly as it was. -/
theorem generation_mismatch_returns_error (w : World) (e : Entity) (meta : EntityMeta)
    (t : TypeInfo) (v : Value)
    (hm : w.entities[e.id]? = some meta)
    (hg : meta.generation ≠ e.generation) :
    w.despawn e = (w, Except.error RunError.noSuchEntity) ∧
    w.get e t = Except.error RunError.noSuchEntity ∧
    w.getMut e t = Except.error RunError.noSuchEntity ∧
    w.entity e = Except.error RunError.noSuchEntity ∧
    w.insert e t v = (w, Except.error RunError.noSuchEntity) ∧
    w.remove e t = (w, Except.error RunError.noSuchEntity) := by
  refine ⟨?_, ?_, ?_, ?_, ?_, ?_⟩ <;>
    simp [World.despawn, World.get, World.getMut, World.entity, World.insert,
      World.remove, hm, hg]

/-- C6 witness: a world with one slot at generation 0 and a handle claiming
generation 5. -/
theorem generation_mismatch_returns_error_witness :
    (({ entities := [{ generation := 0, archetype := 0, index := 0 }], free := [],
        archetypes := [], archetypeIndex := [], borrows := [] } : World).entities[
          ({ generation := 5, id := 0 } : Entity).id]? =
        some { generation := 0, archetype := 0, index := 0 }) ∧
    ({ entities := [{ generation := 0, archetype := 0, index := 0 }], free := [],
        archetypes := [], archetypeIndex := [], borrows := [] } : World).despawn
          { generation := 5, id := 0 } =
      ({ entities := [{ generation := 0, archetype := 0, index := 0 }], free := [],
         archetypes := [], archetypeIndex := [], borrows := [] }, Except.error
           RunError.noSuchEntity) :=
  ⟨rfl,
   (generation_mismatch_returns_error
      { entities := [{ generation := 0, archetype := 0, index := 0 }], free := [],
        archetypes := [], archetypeIndex := [], borrows := [] }
      { generation := 5, id := 0 }
      { generation := 0, archetype := 0, index := 0 } tyA 3 rfl (by decide)).1⟩

/-- C4 (amended): on a live entity that lacks the component type `t`, the
filtered type list equals the source archetype's own type list, so the
archetype-index lookup resolves the target back to the source archetype and
`index2`'s `assert!(i != j)` fires: `remove` panics — with the assertion
message, which does not name `t` — and `NoSuchEntity` remains the only
returned-error case (the generation mismatch path).  The hypotheses state
that `e` is live, its archetype exists, it lacks `t`, and the archetype
index maps the source archetype's key to it (the registration invariant
`world.rs` maintains for every archetype it creates). -/
theorem remove_missing_component_asserts (w : World) (e : Entity) (meta : EntityMeta)
    (srcArch : Archetype) (t : TypeInfo)
    (hm : w.entities[e.id]? = some meta)
    (hg : meta.generation = e.generation)
    (ha : w.archetypes[meta.archetype]? = some srcArch)
    (ht : t.id ∉ srcArch.types.map (·.id))
    (hk : lookupIndex w.archetypeIndex (srcArch.types.map (·.id)) = some meta.archetype) :
    w.remove e t = (w, Except.error (RunError.panic assertNeMsg)) := by
  have hfilter : srcArch.types.filter (fun x => x.id != t.id) = srcArch.types := by
    apply List.filter_eq_self.mpr
    intro a ha2
    simp only [bne_iff_ne, ne_eq, decide_eq_true_eq]
    intro hEq
    exact ht (hEq ▸ List.mem_map_of_mem (·.id) ha2)
  simp [World.remove, hm, hg, ha, hfilter, hk]

/-- The archetype of `wA`: one `tyA` column holding the value 11. -/
def archA : Archetype :=
  { columns := [{ info := tyA, cells := [some 11] }], entityIds := [0] }

/-- The slot metadata of `eA` in `wA`. -/
def metaA0 : EntityMeta := { generation := 0, archetype := 0, index := 0 }

/-- C4 witness: the world with one entity holding one `tyA` component, and a
request to remove `tyB`. -/
theorem remove_missing_component_asserts_witness :
    (wA.entities[eA.id]? = some metaA0) ∧
    (metaA0.generation = eA.generation) ∧
    (wA.archetypes[metaA0.archetype]? = some archA) ∧
    (tyB.id ∉ archA.types.map (·.id)) ∧
    (lookupIndex wA.archetypeIndex (archA.types.map (·.id)) = some metaA0.archetype) ∧
    wA.remove eA tyB = (wA, Except.error (RunError.panic assertNeMsg)) :=
  ⟨rfl, rfl, rfl, by decide, rfl,
   remove_missing_component_asserts wA eA metaA0 archA tyB rfl rfl rfl (by decide) rfl⟩

/-- C8 (amended): the entity iterator's size hint has lower bound 0 and
upper bound the length of the slot table — the number of slots ever
allocated, which equals the live-entity count plus the number of free slots
and is therefore only an upper bound on (not equal to) the live count. -/
theorem size_hint_slots_bound (w : World)
    (hnd : w.free.Nodup)
    (hsub : ∀ i ∈ w.free, i < w.entities.length) :
    w.iterSizeHint = (0, some (w.liveCount + w.free.length)) ∧
    w.liveCount ≤ w.entities.length := by
  have hperm : ((List.range w.entities.length).filter
      (fun i => w.free.contains i)).Perm w.free := by
    rw [List.perm_ext_iff_of_nodup (List.Nodup.filter _ (List.nodup_range _)) hnd]
    intro a
    simp only [List.mem_filter, List.mem_range, List.elem_iff, decide_eq_true_eq]
    exact ⟨fun h => h.2, fun h => ⟨hsub a h, h⟩⟩
  have hcount : (List.range w.entities.length).countP (fun i => w.free.contains i) =
      w.free.length := by
    rw [List.countP_eq_length_filter]
    exact hperm.length_eq
  have hsplit := List.length_eq_countP_add_countP (p := fun i => w.free.contains i)
    (l := List.range w.entities.length)
  rw [List.length_range] at hsplit
  have hpred : (fun a : Nat => decide ¬(w.free.contains a = true)) =
      (fun i : Nat => !w.free.contains i) := by
    funext a
    cases h : w.free.contains a <;> simp [h]
  rw [show (fun a : Nat => decide ¬(w.free.contains a = true)) =
      (fun i : Nat => !w.free.contains i) from hpred] at hsplit
  have hlive : w.liveCount =
      (List.range w.entities.length).countP (fun i => !w.free.contains i) := rfl
  constructor
  · unfold World.iterSizeHint
    congr 1
    congr 1
    omega
  · have := List.countP_le_length (p := fun i => !w.free.contains i)
      (l := List.range w.entities.length)
    rw [List.length_range] at this
    rw [hlive]
    exact this

/-- C8 witness: the two-slot world with one live entity. -/
theorem size_hint_slots_bound_witness :
    wHalf.free.Nodup ∧
    (∀ i ∈ wHalf.free, i < wHalf.entities.length) ∧
    wHalf.iterSizeHint = (0, some (wHalf.liveCount + wHalf.free.length)) :=
  ⟨by decide, by decide,
   (size_hint_slots_bound wHalf (by decide) (by decide)).1⟩

/-- C7: two bundles — tuple bundles in any declaration order, or an
`EntityBuilder`-built bundle — declared with the same unordered component
type-set resolve to the same archetype index when spawned one after the
other in the same world: both providers sort their type list into the
canonical order, so their `elements()` keys coincide, and the second spawn's
index lookup hits the entry the first spawn resolved or created. -/
theorem equal_typesets_resolve_same_archetype (w : World) (b1 b2 : AnyBundle)
    (hfree : ∀ i ∈ w.free, i < w.entities.length)
    (hidx : ∀ p ∈ w.archetypeIndex, p.2 < w.archetypes.length)
    (hperm : b1.rawIds.Perm b2.rawIds) :
    ∃ w1 e1 w2 e2 A,
      w.spawnAny b1 = (w1, Except.ok e1) ∧
      w1.spawnAny b2 = (w2, Except.ok e2) ∧
      (w1.entities[e1.id]?).map (·.archetype) = some A ∧
      (w2.entities[e2.id]?).map (·.archetype) = some A := by
  obtain ⟨w1, e1, A, row1, hs1, hlk1, hm1, _, _, _, hfree1, hidx1⟩ :=
    spawnWith_resolves w b1.elements b1.infoList b1.storeFn b1.storeFn_entityIds hfree hidx
  obtain ⟨w2, e2, A2, row2, hs2, hlk2, hm2, _, hocc2, _, _, _⟩ :=
    spawnWith_resolves w1 b2.elements b2.infoList b2.storeFn b2.storeFn_entityIds hfree1 hidx1
  have hel : b1.elements = b2.elements := AnyBundle.elements_eq_of_perm hperm
  have hA2 : A2 = A := hocc2 A (hel ▸ hlk1)
  refine ⟨w1, e1, w2, e2, A, ?_, ?_, ?_, ?_⟩
  · rw [World.spawnAny_eq]
    exact hs1
  · rw [World.spawnAny_eq]
    exact hs2
  · rw [hm1]
    rfl
  · rw [hm2, hA2]
    rfl

/-- C7 witness: a tuple bundle `(tyA, tyB)` and a builder-built bundle
declared in the opposite order, spawned into the empty world. -/
theorem equal_typesets_resolve_same_archetype_witness :
    (∀ i ∈ World.new.free, i < World.new.entities.length) ∧
    (∀ p ∈ World.new.archetypeIndex, p.2 < World.new.archetypes.length) ∧
    (AnyBundle.tuple [(tyA, 1), (tyB, 2)]).rawIds.Perm
      (AnyBundle.built { components := [(tyB, 3), (tyA, 4)] }).rawIds ∧
    (∃ w1 e1 w2 e2 A,
      World.new.spawnAny (AnyBundle.tuple [(tyA, 1), (tyB, 2)]) = (w1, Except.ok e1) ∧
      w1.spawnAny (AnyBundle.built { components := [(tyB, 3), (tyA, 4)] }) =
        (w2, Except.ok e2) ∧
      (w1.entities[e1.id]?).map (·.archetype) = some A ∧
      (w2.entities[e2.id]?).map (·.archetype) = some A) :=
  ⟨by simp [World.new], by simp [World.new],
   by decide,
   equal_typesets_resolve_same_archetype World.new
     (AnyBundle.tuple [(tyA, 1), (tyB, 2)])
     (AnyBundle.built { components := [(tyB, 3), (tyA, 4)] })
     (by simp [World.new]) (by simp [World.new]) (by decide)⟩

/-- C10: a handle whose id is at least the number of slots ever allocated
makes every entity-indexed operation — `contains`, `despawn`, `get`,
`get_mut`, `entity`, `insert`, `remove` — panic on the out-of-bounds slot
index instead of returning `false` or `NoSuchEntity`. -/
theorem out_of_range_handle_panics (w : World) (e : Entity) (t : TypeInfo) (v : Value)
    (h : w.entities.length ≤ e.id) :
    w.contains e = Except.error (RunError.panic oobMsg) ∧
    w.despawn e = (w, Except.error (RunError.panic oobMsg)) ∧
    w.get e t = Except.error (RunError.panic oobMsg) ∧
    w.getMut e t = Except.error (RunError.panic oobMsg) ∧
    w.entity e = Except.error (RunError.panic oobMsg) ∧
    w.insert e t v = (w, Except.error (RunError.panic oobMsg)) ∧
    w.remove e t = (w, Except.error (RunError.panic oobMsg)) := by
  have hm : w.entities[e.id]? = none := List.getElem?_eq_none h
  refine ⟨?_, ?_, ?_, ?_, ?_, ?_, ?_⟩ <;>
    simp [World.contains, World.despawn, World.get, World.getMut, World.entity,
      World.insert, World.remove, hm]

/-- C10 witness: the empty world and a handle with id 0. -/
theorem out_of_range_handle_panics_witness :
    World.new.entities.length ≤ (({ generation := 0, id := 0 } : Entity)).id ∧
    World.new.contains { generation := 0, id := 0 } =
      Except.error (RunError.panic oobMsg) :=
  ⟨by decide,
   (out_of_range_handle_panics World.new { generation := 0, id := 0 } tyA 3
      (by decide)).1⟩

end FeatherHecs
